import Mathlib

/-!
Shallow embedding of `flink-python/pyflink/table/expressions.py`.

The file under verification is a marshalling layer: every public function
normalizes its Python arguments, invokes exactly named operations on the
remote `Expressions` factory living behind a JVM gateway, and wraps the
returned remote handle in a local `Expression` proxy.

The embedding models a remote handle as a term recording the factory
operation that produced it (`JVal.jCall name operands`), and models the
bridge traffic explicitly: every embedded function returns the local
wrapper together with the chronological list of factory invocations
(`RemoteCall`) it performed.  Two handles are equal exactly when they were
produced by the same operation on equal operand lists, which is the
observational equality this layer can speak about.
-/

namespace PyflinkExpressions

/-- The on-null policy enumeration `JsonOnNull` (imported by
`expressions.py` from `pyflink.table.expression`). -/
inductive JsonOnNull : Type where
  | NULL : JsonOnNull
  | ABSENT : JsonOnNull
  deriving DecidableEq, Repr

/-- A Java-side value crossing the py4j bridge: scalars passed through,
Java arrays built by `to_jarray`, translated enum objects, data-type
descriptors, Java user-defined-function objects, and remote expression
handles.  A handle `jCall name operands` records the factory operation
that returned it. -/
inductive JVal : Type where
  | jInt : Int → JVal
  | jStr : String → JVal
  | jBool : Bool → JVal
  | jNone : JVal
  | jArr : List JVal → JVal
  | jJsonOnNull : JsonOnNull → JVal
  | jDataType : String → JVal
  | jTimePointUnit : String → JVal
  | jUdfHandle : String → JVal
  | jCall : String → List JVal → JVal

/-- The local `Expression` wrapper: it owns exactly one reference to a
Java-side object (`self._j_expr`). -/
structure Expression : Type where
  j_expr : JVal

/-- One invocation of a remote-factory operation: the operation name
resolved on `gateway.jvm.Expressions` (or, for the reflective path, the
declared method invoked on the loaded `Expressions` class) together with
the marshalled operand sequence, in order. -/
structure RemoteCall : Type where
  name : String
  operands : List JVal

/-- A Python-level operand as received by the public functions: a raw
scalar, `None`, a prior `Expression` wrapper, or an already-translated
Java object (such as the result of `_to_j_json_on_null()` or
`_to_java_data_type`). -/
inductive PyVal : Type where
  | int : Int → PyVal
  | str : String → PyVal
  | bool : Bool → PyVal
  | none : PyVal
  | expr : Expression → PyVal
  | jobj : JVal → PyVal

/-- Modelled from the spec: `_get_java_expression` from
`pyflink.table.expression` (not part of this source tree) — the plain
operand normalization used by all arity-tagged builders: a local
expression wrapper is unwrapped to the remote handle it owns, every other
operand crosses the bridge unchanged. -/
def _get_java_expression : PyVal → JVal
  | PyVal.int n => JVal.jInt n
  | PyVal.str s => JVal.jStr s
  | PyVal.bool b => JVal.jBool b
  | PyVal.none => JVal.jNone
  | PyVal.expr e => e.j_expr
  | PyVal.jobj j => j

/-- Modelled from the spec: `to_jarray` from `pyflink.util.java_utils`
(not part of this source tree) — builds an ordered Java array holding the
given elements; a purely local gateway conversion, not a factory
operation. -/
def to_jarray (elems : List JVal) : JVal :=
  JVal.jArr elems

/-- Modelled from the spec: `_to_java_data_type` from
`pyflink.table.types` (not part of this source tree) — translates a local
data-type descriptor to its remote representation. -/
def _to_java_data_type (type_name : String) : JVal :=
  JVal.jDataType type_name

/-- Modelled from the spec: `JsonOnNull._to_j_json_on_null` from
`pyflink.table.expression` (not part of this source tree) — translates
the on-null policy enumeration value to its remote representation. -/
def _to_j_json_on_null (p : JsonOnNull) : JVal :=
  JVal.jJsonOnNull p

/-- Modelled from the spec: `TimePointUnit._to_j_time_point_unit` from
`pyflink.table.expression` (not part of this source tree). -/
def _to_j_time_point_unit (unit_name : String) : JVal :=
  JVal.jTimePointUnit unit_name

/-- The Python `UserDefinedFunctionWrapper` (imported from
`pyflink.table.udf`): identified here by the Java function object it
wraps. -/
structure UserDefinedFunctionWrapper : Type where
  udf_id : String

/-- Modelled from the spec: `_java_user_defined_function` on
`UserDefinedFunctionWrapper` (not part of this source tree) — returns the
Java function-definition object wrapped by the Python UDF wrapper. -/
def _java_user_defined_function (f : UserDefinedFunctionWrapper) : JVal :=
  JVal.jUdfHandle f.udf_id

/-- `getattr(gateway.jvm.Expressions, op_name)(*jargs)`: one invocation
of the named remote-factory operation with the given marshalled operands,
returning the remote handle wrapped into a local `Expression`.  The
second component is the bridge traffic of the invocation: exactly this
one factory call. -/
def invokeFactory (op_name : String) (jargs : List JVal) :
    Expression × List RemoteCall :=
  (⟨JVal.jCall op_name jargs⟩, [⟨op_name, jargs⟩])

/-- `_leaf_op` (expressions.py line 40). -/
def _leaf_op (op_name : String) : Expression × List RemoteCall :=
  invokeFactory op_name []

/-- `_unary_op` (expressions.py line 45). -/
def _unary_op (op_name : String) (arg : PyVal) : Expression × List RemoteCall :=
  invokeFactory op_name [_get_java_expression arg]

/-- `_binary_op` (expressions.py line 50). -/
def _binary_op (op_name : String) (first second : PyVal) :
    Expression × List RemoteCall :=
  invokeFactory op_name [_get_java_expression first, _get_java_expression second]

/-- `_ternary_op` (expressions.py line 57). -/
def _ternary_op (op_name : String) (first second third : PyVal) :
    Expression × List RemoteCall :=
  invokeFactory op_name
    [_get_java_expression first, _get_java_expression second,
     _get_java_expression third]

/-- `_quaternion_op` (expressions.py line 65). -/
def _quaternion_op (op_name : String) (first second third forth : PyVal) :
    Expression × List RemoteCall :=
  invokeFactory op_name
    [_get_java_expression first, _get_java_expression second,
     _get_java_expression third, _get_java_expression forth]

/-- `_varargs_op` (expressions.py line 74). -/
def _varargs_op (op_name : String) (args : List PyVal) :
    Expression × List RemoteCall :=
  invokeFactory op_name (args.map _get_java_expression)

/-- `col` (line 89): `_unary_op("col", name)`. -/
def col (name : PyVal) : Expression × List RemoteCall :=
  _unary_op "col" name

/-- `lit` (line 106): unary without an explicit data type, binary with
one (`data_type = None` is the default of the optional parameter). -/
def lit (v : PyVal) (data_type : Option String) : Expression × List RemoteCall :=
  match data_type with
  | Option.none => _unary_op "lit" v
  | Option.some dt => _binary_op "lit" v (PyVal.jobj (_to_java_data_type dt))

/-- `range_` (line 125). -/
def range_ (start finish : PyVal) : Expression × List RemoteCall :=
  _binary_op "range" start finish

/-- `and_` (line 140): the tail predicates are collected into a Java
array and passed as the third operand of the ternary remote call. -/
def and_ (predicate0 predicate1 : PyVal) (predicates : List PyVal) :
    Expression × List RemoteCall :=
  _ternary_op "and" predicate0 predicate1
    (PyVal.jobj (to_jarray (predicates.map _get_java_expression)))

/-- `or_` (line 152). -/
def or_ (predicate0 predicate1 : PyVal) (predicates : List PyVal) :
    Expression × List RemoteCall :=
  _ternary_op "or" predicate0 predicate1
    (PyVal.jobj (to_jarray (predicates.map _get_java_expression)))

/-- `not_` (line 164). -/
def not_ (expression : PyVal) : Expression × List RemoteCall :=
  _unary_op "not" expression

/-- `current_database` (line 223). -/
def current_database : Expression × List RemoteCall :=
  _leaf_op "currentDatabase"

/-- `current_date` (line 231). -/
def current_date : Expression × List RemoteCall :=
  _leaf_op "currentDate"

/-- `current_time` (line 239). -/
def current_time : Expression × List RemoteCall :=
  _leaf_op "currentTime"

/-- `current_timestamp` (line 247). -/
def current_timestamp : Expression × List RemoteCall :=
  _leaf_op "currentTimestamp"

/-- `current_watermark` (line 256). -/
def current_watermark (rowtimeAttribute : PyVal) : Expression × List RemoteCall :=
  _unary_op "currentWatermark" rowtimeAttribute

/-- `local_time` (line 276). -/
def local_time : Expression × List RemoteCall :=
  _leaf_op "localTime"

/-- `local_timestamp` (line 284). -/
def local_timestamp : Expression × List RemoteCall :=
  _leaf_op "localTimestamp"

/-- `to_date` (line 293): unary without a format, binary with one. -/
def to_date (date_str : PyVal) (format : Option PyVal) :
    Expression × List RemoteCall :=
  match format with
  | Option.none => _unary_op "toDate" date_str
  | Option.some f => _binary_op "toDate" date_str f

/-- `to_timestamp` (line 309). -/
def to_timestamp (timestamp_str : PyVal) (format : Option PyVal) :
    Expression × List RemoteCall :=
  match format with
  | Option.none => _unary_op "toTimestamp" timestamp_str
  | Option.some f => _binary_op "toTimestamp" timestamp_str f

/-- `to_timestamp_ltz` (line 326): arity dispatch on `len(args)`; every
argument is wrapped through `lit` before reaching the factory.  The
`else` branch indexes `args[0]`, `args[1]`, `args[2]`, so the empty call
raises (modelled as `none`) and arguments past the third are dropped.
The bridge traffic is the concatenation of the `lit` invocations (in
argument order) followed by the `toTimestampLtz` invocation. -/
def to_timestamp_ltz (args : List PyVal) :
    Option (Expression × List RemoteCall) :=
  match args with
  | [a0] =>
    let l0 := lit a0 Option.none
    let r := _unary_op "toTimestampLtz" (PyVal.expr l0.1)
    Option.some (r.1, l0.2 ++ r.2)
  | [a0, a1] =>
    let l0 := lit a0 Option.none
    let l1 := lit a1 Option.none
    let r := _binary_op "toTimestampLtz" (PyVal.expr l0.1) (PyVal.expr l1.1)
    Option.some (r.1, l0.2 ++ l1.2 ++ r.2)
  | a0 :: a1 :: a2 :: _ =>
    let l0 := lit a0 Option.none
    let l1 := lit a1 Option.none
    let l2 := lit a2 Option.none
    let r := _ternary_op "toTimestampLtz"
      (PyVal.expr l0.1) (PyVal.expr l1.1) (PyVal.expr l2.1)
    Option.some (r.1, l0.2 ++ l1.2 ++ l2.2 ++ r.2)
  | [] => Option.none

/-- `temporal_overlaps` (line 370). -/
def temporal_overlaps (left_time_point left_temporal right_time_point
    right_temporal : PyVal) : Expression × List RemoteCall :=
  _quaternion_op "temporalOverlaps"
    left_time_point left_temporal right_time_point right_temporal

/-- `date_format` (line 397). -/
def date_format (timestamp format : PyVal) : Expression × List RemoteCall :=
  _binary_op "dateFormat" timestamp format

/-- `timestamp_diff` (line 414). -/
def timestamp_diff (time_point_unit : String) (time_point1 time_point2 : PyVal) :
    Expression × List RemoteCall :=
  _ternary_op "timestampDiff"
    (PyVal.jobj (_to_j_time_point_unit time_point_unit))
    time_point1 time_point2

/-- `convert_tz` (line 433). -/
def convert_tz (date_str tz_from tz_to : PyVal) : Expression × List RemoteCall :=
  _ternary_op "convertTz" date_str tz_from tz_to

/-- `from_unixtime` (line 457). -/
def from_unixtime (unixtime : PyVal) (format : Option PyVal) :
    Expression × List RemoteCall :=
  match format with
  | Option.none => _unary_op "fromUnixtime" unixtime
  | Option.some f => _binary_op "fromUnixtime" unixtime f

/-- `unix_timestamp` (line 469): `date_str` is tested first, so a `None`
date string yields the leaf call even when a format is supplied. -/
def unix_timestamp (date_str : Option PyVal) (format : Option PyVal) :
    Expression × List RemoteCall :=
  match date_str with
  | Option.none => _leaf_op "unixTimestamp"
  | Option.some d =>
    match format with
    | Option.none => _unary_op "unixTimestamp" d
    | Option.some f => _binary_op "unixTimestamp" d f

/-- `array` (line 489). -/
def array (head : PyVal) (tail : List PyVal) : Expression × List RemoteCall :=
  _binary_op "array" head
    (PyVal.jobj (to_jarray (tail.map _get_java_expression)))

/-- `row` (line 504). -/
def row (head : PyVal) (tail : List PyVal) : Expression × List RemoteCall :=
  _binary_op "row" head
    (PyVal.jobj (to_jarray (tail.map _get_java_expression)))

/-- `map_` (line 519). -/
def map_ (key value : PyVal) (tail : List PyVal) : Expression × List RemoteCall :=
  _ternary_op "map" key value
    (PyVal.jobj (to_jarray (tail.map _get_java_expression)))

/-- `map_from_arrays` (line 543). -/
def map_from_arrays (key value : PyVal) : Expression × List RemoteCall :=
  _binary_op "mapFromArrays" key value

/-- `object_of` (line 564). -/
def object_of (class_name : String) (args : List PyVal) :
    Expression × List RemoteCall :=
  _varargs_op "objectOf" (PyVal.str class_name :: args)

/-- `row_interval` (line 597). -/
def row_interval (rows : PyVal) : Expression × List RemoteCall :=
  _unary_op "rowInterval" rows

/-- `pi` (line 617). -/
def pi : Expression × List RemoteCall :=
  _leaf_op "pi"

/-- `e` (line 625). -/
def e : Expression × List RemoteCall :=
  _leaf_op "e"

/-- `rand` (line 633). -/
def rand (seed : Option PyVal) : Expression × List RemoteCall :=
  match seed with
  | Option.none => _leaf_op "rand"
  | Option.some s => _unary_op "rand" s

/-- `rand_integer` (line 646): with a seed, the remote operands are
`(seed, bound)` — the reverse of the public parameter order. -/
def rand_integer (bound : PyVal) (seed : Option PyVal) :
    Expression × List RemoteCall :=
  match seed with
  | Option.none => _unary_op "randInteger" bound
  | Option.some s => _binary_op "randInteger" s bound

/-- `atan2` (line 660). -/
def atan2 (y x : PyVal) : Expression × List RemoteCall :=
  _binary_op "atan2" y x

/-- `negative` (line 668). -/
def negative (v : PyVal) : Expression × List RemoteCall :=
  _unary_op "negative" v

/-- `concat` (line 676). -/
def concat (first : PyVal) (others : List PyVal) : Expression × List RemoteCall :=
  _binary_op "concat" first
    (PyVal.jobj (to_jarray (others.map _get_java_expression)))

/-- `concat_ws` (line 690). -/
def concat_ws (separator first : PyVal) (others : List PyVal) :
    Expression × List RemoteCall :=
  _ternary_op "concatWs" separator first
    (PyVal.jobj (to_jarray (others.map _get_java_expression)))

/-- `uuid` (line 711). -/
def uuid : Expression × List RemoteCall :=
  _leaf_op "uuid"

/-- `null_of` (line 722). -/
def null_of (data_type : String) : Expression × List RemoteCall :=
  _unary_op "nullOf" (PyVal.jobj (_to_java_data_type data_type))

/-- `log` (line 730): with an explicit base, the remote operands are
`(base, v)` — the reverse of the public parameter order. -/
def log (v : PyVal) (base : Option PyVal) : Expression × List RemoteCall :=
  match base with
  | Option.none => _unary_op "log" v
  | Option.some b => _binary_op "log" b v

/-- `source_watermark` (line 742). -/
def source_watermark : Expression × List RemoteCall :=
  _leaf_op "sourceWatermark"

/-- `if_then_else` (line 757). -/
def if_then_else (condition if_true if_false : PyVal) :
    Expression × List RemoteCall :=
  _ternary_op "ifThenElse" condition if_true if_false

/-- `coalesce` (line 772): all arguments go through `to_jarray` and the
array is the single operand of the unary remote call. -/
def coalesce (args : List PyVal) : Expression × List RemoteCall :=
  _unary_op "coalesce" (PyVal.jobj (to_jarray (args.map _get_java_expression)))

/-- `with_all_columns` (line 796). -/
def with_all_columns : Expression × List RemoteCall :=
  _leaf_op "withAllColumns"

/-- `with_columns` (line 813). -/
def with_columns (head : PyVal) (tails : List PyVal) :
    Expression × List RemoteCall :=
  _binary_op "withColumns" head
    (PyVal.jobj (to_jarray (tails.map _get_java_expression)))

/-- `without_columns` (line 832). -/
def without_columns (head : PyVal) (tails : List PyVal) :
    Expression × List RemoteCall :=
  _binary_op "withoutColumns" head
    (PyVal.jobj (to_jarray (tails.map _get_java_expression)))

/-- `json` (line 852). -/
def json (value : PyVal) : Expression × List RemoteCall :=
  _unary_op "json" value

/-- `json_string` (line 886). -/
def json_string (value : PyVal) : Expression × List RemoteCall :=
  _unary_op "jsonString" value

/-- The default of the `on_null` parameter of `json_object`
(line 907): `JsonOnNull.NULL`. -/
def json_object_default_on_null : JsonOnNull :=
  JsonOnNull.NULL

/-- `json_object` (line 907): the translated policy is prepended to the
value arguments and the whole sequence goes through the varargs
builder. -/
def json_object (on_null : JsonOnNull) (args : List PyVal) :
    Expression × List RemoteCall :=
  _varargs_op "jsonObject" (PyVal.jobj (_to_j_json_on_null on_null) :: args)

/-- `json_object_agg` (line 945). -/
def json_object_agg (on_null : JsonOnNull) (key_expr value_expr : PyVal) :
    Expression × List RemoteCall :=
  _ternary_op "jsonObjectAgg" (PyVal.jobj (_to_j_json_on_null on_null))
    key_expr value_expr

/-- The default of the `on_null` parameter of `json_array`
(line 969): `JsonOnNull.ABSENT`. -/
def json_array_default_on_null : JsonOnNull :=
  JsonOnNull.ABSENT

/-- `json_array` (line 969). -/
def json_array (on_null : JsonOnNull) (args : List PyVal) :
    Expression × List RemoteCall :=
  _varargs_op "jsonArray" (PyVal.jobj (_to_j_json_on_null on_null) :: args)

/-- `json_array_agg` (line 1004). -/
def json_array_agg (on_null : JsonOnNull) (item_expr : PyVal) :
    Expression × List RemoteCall :=
  _binary_op "jsonArrayAgg" (PyVal.jobj (_to_j_json_on_null on_null)) item_expr

/-- `lag` (line 1024): binary without a default value, ternary with
one (`offset` defaults to 1, `default` to `None`). -/
def lag (expr offset : PyVal) (default : Option PyVal) :
    Expression × List RemoteCall :=
  match default with
  | Option.none => _binary_op "lag" expr offset
  | Option.some d => _ternary_op "lag" expr offset d

/-- `lead` (line 1036). -/
def lead (expr offset : PyVal) (default : Option PyVal) :
    Expression × List RemoteCall :=
  match default with
  | Option.none => _binary_op "lead" expr offset
  | Option.some d => _ternary_op "lead" expr offset d

/-- The first parameter of `call`: a function path string or a Python
user-defined-function wrapper (the `isinstance(f, str)` test). -/
inductive CallTarget : Type where
  | byName : String → CallTarget
  | byUdf : UserDefinedFunctionWrapper → CallTarget

/-- `call` (line 1048): a string goes through
`gateway.jvm.Expressions.call(f, args_array)`; a UDF wrapper goes
through the reflectively loaded `apiCall` method invoked with the Java
function definition and the argument array. -/
def call (f : CallTarget) (args : List PyVal) : Expression × List RemoteCall :=
  match f with
  | CallTarget.byName s =>
    invokeFactory "call"
      [JVal.jStr s, to_jarray (args.map _get_java_expression)]
  | CallTarget.byUdf u =>
    invokeFactory "apiCall"
      [_java_user_defined_function u,
       to_jarray (args.map _get_java_expression)]

/-- `call_sql` (line 1096). -/
def call_sql (sql_expression : PyVal) : Expression × List RemoteCall :=
  _unary_op "callSql" sql_expression

/-- A Python function object as seen by `inspect.getmembers`: a docstring
together with its runtime behavior (the bridge traffic and the wrapper it
produces, `none` when the call raises). -/
structure PyFunction : Type where
  doc : String
  behavior : List PyVal → Option (Expression × List RemoteCall)

/-- A member of the `expressions` module namespace: a function object, or
any other attribute (such as the module-level `Expression` constants),
which `isfunction` rejects. -/
inductive ModuleMember : Type where
  | func : PyFunction → ModuleMember
  | const : Expression → ModuleMember

/-- Modelled from the spec: `add_version_doc` from the `pyflink` package
root (not part of this source tree) — attaches the "since version"
documentation marker to the function's docstring; purely cosmetic, the
function's behavior is untouched. -/
def add_version_doc (f : PyFunction) (version : String) : PyFunction :=
  { f with doc := f.doc ++ "\n.. versionadded:: " ++ version }

/-- `o[0].startswith('_')` from line 84: does the member name begin with
an underscore? -/
def startswith_underscore (n : String) : Bool :=
  match n.data with
  | [] => false
  | c :: _ => c = '_' 

/-- The loop body of `_add_version_doc` (line 83) acting on one member
`o` of `getmembers(expressions)`: when the member is a function
(`isfunction(o[1])`) whose name does not start with an underscore
(`not o[0].startswith('_')`), the "1.12.0" version marker is attached. -/
def _add_version_doc_member (o : String × ModuleMember) :
    String × ModuleMember :=
  match o with
  | (n, ModuleMember.func f) =>
    if startswith_underscore n then (n, ModuleMember.func f)
    else (n, ModuleMember.func (add_version_doc f "1.12.0"))
  | (n, ModuleMember.const c) => (n, ModuleMember.const c)

/-- `_add_version_doc` (line 80): iterates `getmembers(expressions)`
applying the loop body to every member. -/
def _add_version_doc (members : List (String × ModuleMember)) :
    List (String × ModuleMember) :=
  members.map _add_version_doc_member

/-- A sample module member for exercising the documentation pass: the
`col` function under its public module name. -/
def sample_col_function : PyFunction :=
  ⟨"", fun args =>
    match args with
    | [a] => Option.some (col a)
    | _ => Option.none⟩

/-- A one-member module namespace holding `sample_col_function`. -/
def sample_module : List (String × ModuleMember) :=
  [("col", ModuleMember.func sample_col_function)]

/-- C1: `to_timestamp_ltz` routes a 1-argument call to a unary
`toTimestampLtz` factory invocation, a 2-argument call to a binary one,
and a 3-argument call to a ternary one; in each case the operands are the
`lit`-wrapped arguments in the order the Python arguments were given, so
the three argument counts produce remote calls distinguishable by operand
count. -/
theorem toTimestampLtz_arity_dispatch :
    ∀ a0 a1 a2 : PyVal,
      to_timestamp_ltz [a0] =
        Option.some
          (⟨JVal.jCall "toTimestampLtz"
              [JVal.jCall "lit" [_get_java_expression a0]]⟩,
           [⟨"lit", [_get_java_expression a0]⟩,
            ⟨"toTimestampLtz", [JVal.jCall "lit" [_get_java_expression a0]]⟩]) ∧
      to_timestamp_ltz [a0, a1] =
        Option.some
          (⟨JVal.jCall "toTimestampLtz"
              [JVal.jCall "lit" [_get_java_expression a0],
               JVal.jCall "lit" [_get_java_expression a1]]⟩,
           [⟨"lit", [_get_java_expression a0]⟩,
            ⟨"lit", [_get_java_expression a1]⟩,
            ⟨"toTimestampLtz",
             [JVal.jCall "lit" [_get_java_expression a0],
              JVal.jCall "lit" [_get_java_expression a1]]⟩]) ∧
      to_timestamp_ltz [a0, a1, a2] =
        Option.some
          (⟨JVal.jCall "toTimestampLtz"
              [JVal.jCall "lit" [_get_java_expression a0],
               JVal.jCall "lit" [_get_java_expression a1],
               JVal.jCall "lit" [_get_java_expression a2]]⟩,
           [⟨"lit", [_get_java_expression a0]⟩,
            ⟨"lit", [_get_java_expression a1]⟩,
            ⟨"lit", [_get_java_expression a2]⟩,
            ⟨"toTimestampLtz",
             [JVal.jCall "lit" [_get_java_expression a0],
              JVal.jCall "lit" [_get_java_expression a1],
              JVal.jCall "lit" [_get_java_expression a2]]⟩]) :=
  fun _ _ _ => ⟨rfl, rfl, rfl⟩

/-- C2: `json_object` and `json_array` always pass the translated
on-null policy as the first positional operand of the `jsonObject` /
`jsonArray` factory call, followed by exactly the value operands in
order; with zero values the remote call receives exactly the policy
operand. -/
theorem jsonConstruction_policy_first :
    ∀ (p : JsonOnNull) (args : List PyVal),
      (json_object p args).2 =
        [⟨"jsonObject",
          JVal.jJsonOnNull p :: args.map _get_java_expression⟩] ∧
      (json_array p args).2 =
        [⟨"jsonArray",
          JVal.jJsonOnNull p :: args.map _get_java_expression⟩] ∧
      (json_object p []).2 = [⟨"jsonObject", [JVal.jJsonOnNull p]⟩] ∧
      (json_array p []).2 = [⟨"jsonArray", [JVal.jJsonOnNull p]⟩] :=
  fun _ _ => ⟨rfl, rfl, rfl, rfl⟩

/-- C3: `call` dispatches a string-named function through the name-based
`call` factory entry point and a user-defined-function wrapper through
the direct `apiCall` entry point; each input kind produces a trace
consisting of exactly its own entry point, so a string never reaches
`apiCall` and a function object never reaches `call`. -/
theorem call_entry_point_dispatch :
    ∀ (s : String) (u : UserDefinedFunctionWrapper) (args : List PyVal),
      call (CallTarget.byName s) args =
        (⟨JVal.jCall "call"
            [JVal.jStr s, JVal.jArr (args.map _get_java_expression)]⟩,
         [⟨"call",
           [JVal.jStr s, JVal.jArr (args.map _get_java_expression)]⟩]) ∧
      call (CallTarget.byUdf u) args =
        (⟨JVal.jCall "apiCall"
            [JVal.jUdfHandle u.udf_id,
             JVal.jArr (args.map _get_java_expression)]⟩,
         [⟨"apiCall",
           [JVal.jUdfHandle u.udf_id,
            JVal.jArr (args.map _get_java_expression)]⟩]) ∧
      (call (CallTarget.byName s) args).2.map RemoteCall.name = ["call"] ∧
      (call (CallTarget.byUdf u) args).2.map RemoteCall.name = ["apiCall"] :=
  fun _ _ _ => ⟨rfl, rfl, rfl, rfl⟩

/-- C4: `and_` on three conditions performs the single ternary `and`
factory invocation whose first two operands are the normalized first two
conditions and whose third operand is the Java array holding the
remaining condition; the result is the remote-call handle, not a locally
computed boolean. -/
theorem and_ternary_passthrough :
    ∀ p0 p1 p2 : PyVal,
      and_ p0 p1 [p2] =
        (⟨JVal.jCall "and"
            [_get_java_expression p0, _get_java_expression p1,
             JVal.jArr [_get_java_expression p2]]⟩,
         [⟨"and",
           [_get_java_expression p0, _get_java_expression p1,
            JVal.jArr [_get_java_expression p2]]⟩]) :=
  fun _ _ _ => rfl

/-- C8: with the optional second argument supplied, `rand_integer`
invokes `randInteger` with `(seed, bound)` and `log` invokes `log` with
`(base, v)` — both remote operand orders are the reverse of the public
parameter order. -/
theorem remote_operand_order_reversed :
    ∀ bound seed v base : PyVal,
      rand_integer bound (Option.some seed) =
        (⟨JVal.jCall "randInteger"
            [_get_java_expression seed, _get_java_expression bound]⟩,
         [⟨"randInteger",
           [_get_java_expression seed, _get_java_expression bound]⟩]) ∧
      log v (Option.some base) =
        (⟨JVal.jCall "log"
            [_get_java_expression base, _get_java_expression v]⟩,
         [⟨"log", [_get_java_expression base, _get_java_expression v]⟩]) :=
  fun _ _ _ _ => ⟨rfl, rfl⟩

/-- C9: every `to_timestamp_ltz` argument is wrapped through the `lit`
constructor before reaching the `toTimestampLtz` invocation (one `lit`
factory call per consumed argument, and every `toTimestampLtz` operand is
a `lit` handle), whereas `to_date` and `to_timestamp` pass their
arguments through the plain normalization with no `lit` invocation. -/
theorem to_timestamp_ltz_lit_wrapping :
    ∀ a0 a1 a2 d f : PyVal,
      (to_timestamp_ltz [a0]).map (fun w => w.2.map RemoteCall.name) =
        Option.some ["lit", "toTimestampLtz"] ∧
      (to_timestamp_ltz [a0, a1]).map (fun w => w.2.map RemoteCall.name) =
        Option.some ["lit", "lit", "toTimestampLtz"] ∧
      (to_timestamp_ltz [a0, a1, a2]).map (fun w => w.2.map RemoteCall.name) =
        Option.some ["lit", "lit", "lit", "toTimestampLtz"] ∧
      (to_timestamp_ltz [a0, a1, a2]).map (fun w => w.1.j_expr) =
        Option.some
          (JVal.jCall "toTimestampLtz"
            [JVal.jCall "lit" [_get_java_expression a0],
             JVal.jCall "lit" [_get_java_expression a1],
             JVal.jCall "lit" [_get_java_expression a2]]) ∧
      to_date d Option.none =
        (⟨JVal.jCall "toDate" [_get_java_expression d]⟩,
         [⟨"toDate", [_get_java_expression d]⟩]) ∧
      to_date d (Option.some f) =
        (⟨JVal.jCall "toDate" [_get_java_expression d, _get_java_expression f]⟩,
         [⟨"toDate", [_get_java_expression d, _get_java_expression f]⟩]) ∧
      to_timestamp d Option.none =
        (⟨JVal.jCall "toTimestamp" [_get_java_expression d]⟩,
         [⟨"toTimestamp", [_get_java_expression d]⟩]) ∧
      to_timestamp d (Option.some f) =
        (⟨JVal.jCall "toTimestamp"
            [_get_java_expression d, _get_java_expression f]⟩,
         [⟨"toTimestamp",
           [_get_java_expression d, _get_java_expression f]⟩]) :=
  fun _ _ _ _ _ => ⟨rfl, rfl, rfl, rfl, rfl, rfl, rfl, rfl⟩

/-- C10: with no arguments, `json_object` defaults the policy to
`JsonOnNull.NULL` and `json_array` defaults it to `JsonOnNull.ABSENT`, so
the two zero-argument remote calls carry different policy operands. -/
theorem json_default_policies_differ :
    json_object json_object_default_on_null [] =
      (⟨JVal.jCall "jsonObject" [JVal.jJsonOnNull JsonOnNull.NULL]⟩,
       [⟨"jsonObject", [JVal.jJsonOnNull JsonOnNull.NULL]⟩]) ∧
    json_array json_array_default_on_null [] =
      (⟨JVal.jCall "jsonArray" [JVal.jJsonOnNull JsonOnNull.ABSENT]⟩,
       [⟨"jsonArray", [JVal.jJsonOnNull JsonOnNull.ABSENT]⟩]) ∧
    JVal.jJsonOnNull JsonOnNull.NULL ≠ JVal.jJsonOnNull JsonOnNull.ABSENT :=
  ⟨rfl, rfl, fun h => by
    injection h with h'
    exact JsonOnNull.noConfusion h'⟩

/-- C5 counterexample: a 1-argument `to_timestamp_ltz` call performs two
remote-factory invocations (`lit` followed by `toTimestampLtz`), not
one. -/
theorem to_timestamp_ltz_two_factory_calls :
    to_timestamp_ltz [PyVal.int 100] =
      Option.some
        (⟨JVal.jCall "toTimestampLtz" [JVal.jCall "lit" [JVal.jInt 100]]⟩,
         [⟨"lit", [JVal.jInt 100]⟩,
          ⟨"toTimestampLtz", [JVal.jCall "lit" [JVal.jInt 100]]⟩]) ∧
    (to_timestamp_ltz [PyVal.int 100]).elim 0 (fun w => w.2.length) ≠ 1 :=
  ⟨rfl, by decide⟩

/-- C5 (amended): every public function performs exactly one
remote-factory invocation per call, except `to_timestamp_ltz`, which
additionally performs one `lit` factory invocation per consumed argument
(so k+1 invocations for k = 1, 2, 3 consumed arguments). -/
theorem single_factory_invocation_except_ltz :
    ∀ (a b c d : PyVal) (xs : List PyVal) (oa ob : Option PyVal)
      (s : String) (u : CallTarget) (p : JsonOnNull) (odt : Option String),
      (col a).2.length = 1 ∧
      (lit a odt).2.length = 1 ∧
      (range_ a b).2.length = 1 ∧
      (and_ a b xs).2.length = 1 ∧
      (or_ a b xs).2.length = 1 ∧
      (not_ a).2.length = 1 ∧
      current_database.2.length = 1 ∧
      current_date.2.length = 1 ∧
      current_time.2.length = 1 ∧
      current_timestamp.2.length = 1 ∧
      (current_watermark a).2.length = 1 ∧
      local_time.2.length = 1 ∧
      local_timestamp.2.length = 1 ∧
      (to_date a oa).2.length = 1 ∧
      (to_timestamp a oa).2.length = 1 ∧
      (temporal_overlaps a b c d).2.length = 1 ∧
      (date_format a b).2.length = 1 ∧
      (timestamp_diff s a b).2.length = 1 ∧
      (convert_tz a b c).2.length = 1 ∧
      (from_unixtime a oa).2.length = 1 ∧
      (unix_timestamp oa ob).2.length = 1 ∧
      (array a xs).2.length = 1 ∧
      (row a xs).2.length = 1 ∧
      (map_ a b xs).2.length = 1 ∧
      (map_from_arrays a b).2.length = 1 ∧
      (object_of s xs).2.length = 1 ∧
      (row_interval a).2.length = 1 ∧
      pi.2.length = 1 ∧
      e.2.length = 1 ∧
      (rand oa).2.length = 1 ∧
      (rand_integer a oa).2.length = 1 ∧
      (atan2 a b).2.length = 1 ∧
      (negative a).2.length = 1 ∧
      (concat a xs).2.length = 1 ∧
      (concat_ws a b xs).2.length = 1 ∧
      uuid.2.length = 1 ∧
      (null_of s).2.length = 1 ∧
      (log a oa).2.length = 1 ∧
      source_watermark.2.length = 1 ∧
      (if_then_else a b c).2.length = 1 ∧
      (coalesce xs).2.length = 1 ∧
      with_all_columns.2.length = 1 ∧
      (with_columns a xs).2.length = 1 ∧
      (without_columns a xs).2.length = 1 ∧
      (json a).2.length = 1 ∧
      (json_string a).2.length = 1 ∧
      (json_object p xs).2.length = 1 ∧
      (json_object_agg p a b).2.length = 1 ∧
      (json_array p xs).2.length = 1 ∧
      (json_array_agg p a).2.length = 1 ∧
      (lag a b oa).2.length = 1 ∧
      (lead a b oa).2.length = 1 ∧
      (call u xs).2.length = 1 ∧
      (call_sql a).2.length = 1 ∧
      (to_timestamp_ltz [a]).map (fun w => w.2.length) = Option.some 2 ∧
      (to_timestamp_ltz [a, b]).map (fun w => w.2.length) = Option.some 3 ∧
      (to_timestamp_ltz (a :: b :: c :: xs)).map (fun w => w.2.length) =
        Option.some 4 := by
  intro a b c d xs oa ob s u p odt
  repeat' apply And.intro
  all_goals cases oa <;> cases ob <;> cases odt <;> cases u <;> rfl

/-- C6: constructing the same expression twice from equal inputs
marshals identical operand sequences to the remote factory — the cited
builders and every public function of the module produce, for equal
arguments, the same remote operation name and the same operands in the
same order (the wrapper need not be shared between the two calls; here
even the wrappers coincide). -/
theorem marshalling_deterministic :
    ∀ (op : String) (a b a2 b2 p0 p1 : PyVal) (args args2 : List PyVal)
      (c c2 d d2 : PyVal) (oa oa2 ob ob2 : Option PyVal) (s s2 : String)
      (u u2 : CallTarget) (p p2 : JsonOnNull) (odt odt2 : Option String),
      (a = a2 → b = b2 → _binary_op op a b = _binary_op op a2 b2) ∧
      (args = args2 → _varargs_op op args = _varargs_op op args2) ∧
      (args = args2 → and_ p0 p1 args = and_ p0 p1 args2) ∧
      (args = args2 → to_timestamp_ltz args = to_timestamp_ltz args2) ∧
      (a = a2 → col a = col a2) ∧
      (a = a2 → odt = odt2 → lit a odt = lit a2 odt2) ∧
      (a = a2 → b = b2 → range_ a b = range_ a2 b2) ∧
      (a = a2 → b = b2 → args = args2 → and_ a b args = and_ a2 b2 args2) ∧
      (a = a2 → b = b2 → args = args2 → or_ a b args = or_ a2 b2 args2) ∧
      (a = a2 → not_ a = not_ a2) ∧
      current_database = current_database ∧
      current_date = current_date ∧
      current_time = current_time ∧
      current_timestamp = current_timestamp ∧
      (a = a2 → current_watermark a = current_watermark a2) ∧
      local_time = local_time ∧
      local_timestamp = local_timestamp ∧
      (a = a2 → oa = oa2 → to_date a oa = to_date a2 oa2) ∧
      (a = a2 → oa = oa2 → to_timestamp a oa = to_timestamp a2 oa2) ∧
      (a = a2 → b = b2 → c = c2 → d = d2 →
        temporal_overlaps a b c d = temporal_overlaps a2 b2 c2 d2) ∧
      (a = a2 → b = b2 → date_format a b = date_format a2 b2) ∧
      (s = s2 → a = a2 → b = b2 →
        timestamp_diff s a b = timestamp_diff s2 a2 b2) ∧
      (a = a2 → b = b2 → c = c2 → convert_tz a b c = convert_tz a2 b2 c2) ∧
      (a = a2 → oa = oa2 → from_unixtime a oa = from_unixtime a2 oa2) ∧
      (oa = oa2 → ob = ob2 → unix_timestamp oa ob = unix_timestamp oa2 ob2) ∧
      (a = a2 → args = args2 → array a args = array a2 args2) ∧
      (a = a2 → args = args2 → row a args = row a2 args2) ∧
      (a = a2 → b = b2 → args = args2 → map_ a b args = map_ a2 b2 args2) ∧
      (a = a2 → b = b2 → map_from_arrays a b = map_from_arrays a2 b2) ∧
      (s = s2 → args = args2 → object_of s args = object_of s2 args2) ∧
      (a = a2 → row_interval a = row_interval a2) ∧
      pi = pi ∧
      e = e ∧
      (oa = oa2 → rand oa = rand oa2) ∧
      (a = a2 → oa = oa2 → rand_integer a oa = rand_integer a2 oa2) ∧
      (a = a2 → b = b2 → atan2 a b = atan2 a2 b2) ∧
      (a = a2 → negative a = negative a2) ∧
      (a = a2 → args = args2 → concat a args = concat a2 args2) ∧
      (a = a2 → b = b2 → args = args2 →
        concat_ws a b args = concat_ws a2 b2 args2) ∧
      uuid = uuid ∧
      (s = s2 → null_of s = null_of s2) ∧
      (a = a2 → oa = oa2 → log a oa = log a2 oa2) ∧
      source_watermark = source_watermark ∧
      (a = a2 → b = b2 → c = c2 →
        if_then_else a b c = if_then_else a2 b2 c2) ∧
      (args = args2 → coalesce args = coalesce args2) ∧
      with_all_columns = with_all_columns ∧
      (a = a2 → args = args2 → with_columns a args = with_columns a2 args2) ∧
      (a = a2 → args = args2 →
        without_columns a args = without_columns a2 args2) ∧
      (a = a2 → json a = json a2) ∧
      (a = a2 → json_string a = json_string a2) ∧
      (p = p2 → args = args2 → json_object p args = json_object p2 args2) ∧
      (p = p2 → a = a2 → b = b2 →
        json_object_agg p a b = json_object_agg p2 a2 b2) ∧
      (p = p2 → args = args2 → json_array p args = json_array p2 args2) ∧
      (p = p2 → a = a2 → json_array_agg p a = json_array_agg p2 a2) ∧
      (a = a2 → b = b2 → oa = oa2 → lag a b oa = lag a2 b2 oa2) ∧
      (a = a2 → b = b2 → oa = oa2 → lead a b oa = lead a2 b2 oa2) ∧
      (u = u2 → args = args2 → call u args = call u2 args2) ∧
      (a = a2 → call_sql a = call_sql a2) := by
  intro op a b a2 b2 p0 p1 args args2 c c2 d d2 oa oa2 ob ob2 s s2
    u u2 p p2 odt odt2
  repeat' apply And.intro
  all_goals intros
  all_goals subst_vars
  all_goals rfl

/-- C6 witness at concrete inputs. -/
theorem marshalling_deterministic_witness :
    _binary_op "atan2" (PyVal.int 1) (PyVal.int 2) =
      _binary_op "atan2" (PyVal.int 1) (PyVal.int 2) ∧
    _varargs_op "jsonObject" [PyVal.str "k"] =
      _varargs_op "jsonObject" [PyVal.str "k"] :=
  ⟨(marshalling_deterministic "atan2" (PyVal.int 1) (PyVal.int 2)
      (PyVal.int 1) (PyVal.int 2) (PyVal.bool true) (PyVal.bool true)
      [] [] (PyVal.int 3) (PyVal.int 3) (PyVal.int 4) (PyVal.int 4)
      Option.none Option.none Option.none Option.none "x" "x"
      (CallTarget.byName "f") (CallTarget.byName "f")
      JsonOnNull.NULL JsonOnNull.NULL Option.none Option.none).1 rfl rfl,
   (marshalling_deterministic "jsonObject" (PyVal.int 1) (PyVal.int 2)
      (PyVal.int 1) (PyVal.int 2) (PyVal.bool true) (PyVal.bool true)
      [PyVal.str "k"] [PyVal.str "k"]
      (PyVal.int 3) (PyVal.int 3) (PyVal.int 4) (PyVal.int 4)
      Option.none Option.none Option.none Option.none "x" "x"
      (CallTarget.byName "f") (CallTarget.byName "f")
      JsonOnNull.NULL JsonOnNull.NULL Option.none Option.none).2.1 rfl⟩

/-- C7: the module-load documentation pass attaches the version marker to
every public (non-underscore-prefixed) function member, leaves private
functions and non-function members untouched, preserves member count and
names, and never changes any function's behavior: the remote operation
invoked and the wrapper returned are identical with and without the
pass. -/
theorem version_doc_pass_cosmetic :
    ∀ (members : List (String × ModuleMember)) (i : Nat) (n : String),
      (_add_version_doc members).length = members.length ∧
      (∀ f : PyFunction,
        members[i]? = Option.some (n, ModuleMember.func f) →
        startswith_underscore n = true →
        (_add_version_doc members)[i]? =
          Option.some (n, ModuleMember.func f)) ∧
      (∀ f : PyFunction,
        members[i]? = Option.some (n, ModuleMember.func f) →
        startswith_underscore n = false →
        (_add_version_doc members)[i]? =
          Option.some (n, ModuleMember.func (add_version_doc f "1.12.0")) ∧
        (add_version_doc f "1.12.0").doc =
          f.doc ++ "\n.. versionadded:: " ++ "1.12.0" ∧
        (add_version_doc f "1.12.0").behavior = f.behavior) ∧
      (∀ c : Expression,
        members[i]? = Option.some (n, ModuleMember.const c) →
        (_add_version_doc members)[i]? =
          Option.some (n, ModuleMember.const c)) ∧
      (∀ (f : PyFunction) (args : List PyVal),
        members[i]? = Option.some (n, ModuleMember.func f) →
        ∃ g : PyFunction,
          (_add_version_doc members)[i]? =
            Option.some (n, ModuleMember.func g) ∧
          g.behavior args = f.behavior args) := by
  intro members i n
  refine ⟨by simp [_add_version_doc], ?_, ?_, ?_, ?_⟩
  · intro f h hS
    rw [_add_version_doc, List.getElem?_map, h]
    simp [_add_version_doc_member, hS]
  · intro f h hS
    refine ⟨?_, rfl, rfl⟩
    rw [_add_version_doc, List.getElem?_map, h]
    simp [_add_version_doc_member, hS]
  · intro c h
    rw [_add_version_doc, List.getElem?_map, h]
    simp [_add_version_doc_member]
  · intro f args h
    cases hS : startswith_underscore n with
    | true =>
      refine ⟨f, ?_, rfl⟩
      rw [_add_version_doc, List.getElem?_map, h]
      simp [_add_version_doc_member, hS]
    | false =>
      refine ⟨add_version_doc f "1.12.0", ?_, rfl⟩
      rw [_add_version_doc, List.getElem?_map, h]
      simp [_add_version_doc_member, hS]

/-- C7 witness: the pass applied to the one-member sample module marks
the public `col` member and leaves its behavior intact. -/
theorem version_doc_pass_cosmetic_witness :
    (_add_version_doc sample_module)[0]? =
      Option.some
        ("col", ModuleMember.func (add_version_doc sample_col_function "1.12.0")) ∧
    (add_version_doc sample_col_function "1.12.0").doc =
      sample_col_function.doc ++ "\n.. versionadded:: " ++ "1.12.0" ∧
    (add_version_doc sample_col_function "1.12.0").behavior =
      sample_col_function.behavior :=
  (version_doc_pass_cosmetic sample_module 0 "col").2.2.1
    sample_col_function rfl (by decide)

end PyflinkExpressions
